import Mathlib

/-!
Shallow embedding of `src/scripts/dataset_importer.py` (ClickHouse dataset
importer) and verification of the specification's claims about it.

Modelling conventions:
* A polars `DataFrame` is a columnar table: an ordered list of named, typed
  columns, each carrying its (already stringified) values.
* File system and network effects are parameters: the Reader receives the
  parse outcome of each file as an oracle (`Except String _`), and the store
  client is modelled by an explicit state (`Store`) plus a failure oracle
  saying which store command raises.
* Python exceptions become `Except` errors; the orchestrator's lack of a
  `try/except` around store calls is mirrored by error propagation out of
  the fold.
-/

namespace DatasetImporter

/-- Runtime column types of the dataframe library, as a closed enumeration:
the four types named in the importer's `type_mapping` plus representatives of
the many other polars dtypes (which the importer treats via its default). -/
inductive PolarsType where
  | int32
  | float32
  | utf8
  | datetime
  | int64
  | float64
  | boolean
  | date
  | other (tag : String)
  deriving DecidableEq, Repr

/-- One dataframe column: name, dtype, and the column's values (scalars are
modelled as strings, matching the importer's stringification at insert). -/
structure Column where
  name : String
  dtype : PolarsType
  values : List String
  deriving DecidableEq, Repr

/-- A polars DataFrame: ordered list of columns. -/
structure DataFrame where
  cols : List Column
  deriving DecidableEq, Repr

/-- `self.supported_formats` keys from `__post_init__` (line 56-60). -/
def supported_formats : List String := ["csv", "json", "parquet"]

/-- `filter_tables` field default (line 51): the Exclusion Set. -/
def filter_tables : List String := ["train_fraud_labels"]

/-- Errors raised by `get_dataframe`: the `ValueError` for an unsupported
format tag (line 80) and the `RuntimeError` wrapping any read/parse
exception (line 91). -/
inductive ReaderError where
  | unsupportedFormat (tag : String)
  | readFailure (message : String)
  deriving DecidableEq, Repr

/-- The dataframe built in interpolation mode (lines 86-88):
`pl.DataFrame({"code": list(data.keys()), "name": list(data.values())})`
for a flat JSON object `data`, whose key order is preserved. -/
def interpolatedFrame (data : List (String × String)) : DataFrame :=
  { cols := [ { name := "code", dtype := .utf8, values := data.map Prod.fst },
              { name := "name", dtype := .utf8, values := data.map Prod.snd } ] }

/-- `ClickHouseImporter.get_dataframe` (lines 62-91).
`jsonLoad path` is the outcome of `json.load(open(path))` read as a flat
object; `formatRead tag path` is the outcome of the generic per-format
reader `self.supported_formats[tag](path)`. The unsupported-format check
comes first (line 79-80); inside the `try`, interpolation mode parses the
flat object (lines 83-88), otherwise the generic reader runs (line 89); any
failure is wrapped with the `Failed to read dataset: ` message (line 91). -/
def get_dataframe
    (jsonLoad : String → Except String (List (String × String)))
    (formatRead : String → String → Except String DataFrame)
    (dataset_path : String) (dataset_type : String)
    (interpolation : Bool) : Except ReaderError DataFrame :=
  if dataset_type ∈ supported_formats then
    if interpolation then
      match jsonLoad dataset_path with
      | .ok data => .ok (interpolatedFrame data)
      | .error e => .error (.readFailure ("Failed to read dataset: " ++ e))
    else
      match formatRead dataset_type dataset_path with
      | .ok df => .ok df
      | .error e => .error (.readFailure ("Failed to read dataset: " ++ e))
  else
    .error (.unsupportedFormat dataset_type)

/-- The `type_mapping` table of `get_columns_from_df` (lines 115-120). -/
def type_mapping : List (PolarsType × String) :=
  [(.int32, "Int32"), (.float32, "Float32"), (.utf8, "String"), (.datetime, "DateTime")]

/-- Lookup in `type_mapping` with the default-to-String branch
(lines 125-128). -/
def mapColType (t : PolarsType) : String :=
  match type_mapping.lookup t with
  | some s => s
  | none => "String"

/-- One column definition string `f"{column} {type}"` (lines 126/128). -/
def colDef (c : Column) : String :=
  c.name ++ " " ++ mapColType c.dtype

/-- `ClickHouseImporter.get_columns_from_df` (lines 105-129): the per-column
definitions joined with `", "`. -/
def get_columns_from_df (df : DataFrame) : String :=
  String.intercalate ", " (df.cols.map colDef)

/-- `ClickHouseImporter.generate_clickhouse_ddl` (lines 131-143). -/
def generate_clickhouse_ddl (df : DataFrame) (table_name : String) : String :=
  "CREATE TABLE " ++ table_name ++ " (" ++ get_columns_from_df df ++ ") ENGINE = Memory"

/-- State of one destination table in the store: the DDL it was created
with, and its rows. -/
structure TableState where
  schema : String
  rows : List (List String)
  deriving DecidableEq, Repr

/-- The ClickHouse store: a partial map from table name to table state.
The store is the collaborator; this system only issues commands. -/
abbrev Store := String → Option TableState

/-- The empty store. -/
def emptyStore : Store := fun _ => none

/-- Store after (re)binding one table. -/
def updateTable (s : Store) (n : String) (ts : TableState) : Store :=
  fun m => if m = n then some ts else s m

/-- Store after dropping one table (no-op when absent, `IF EXISTS`). -/
def removeTable (s : Store) (n : String) : Store :=
  fun m => if m = n then none else s m

/-- The four command shapes the importer issues against the store:
`SHOW TABLES LIKE`, `CREATE TABLE`, `DROP TABLE IF EXISTS`,
`INSERT INTO ... VALUES`. -/
inductive StoreCmd where
  | showTables (table : String)
  | createTable (table : String) (ddl : String)
  | dropTable (table : String)
  | insert (table : String) (rows : List (List String))
  deriving DecidableEq, Repr

/-- Rows sent by `import_dataset` (line 39): `df.to_numpy()` yields the
row-major view of the columnar frame, each scalar stringified. -/
def toRows (df : DataFrame) : List (List String) :=
  (df.cols.map Column.values).transpose

/-- Execution of one store command. `fail` is the environment oracle
choosing which commands raise (network error, SQL error, ...); on success
the command acts on the store state and returns the boolean that
`check_table_exists` extracts from `SHOW TABLES` (`len(result) > 0`,
line 18); other commands return `true`. Dropping an absent table is not an
error (`IF EXISTS`); inserting into an absent table is. -/
def runCmd (fail : StoreCmd → Bool) (s : Store) (cmd : StoreCmd) :
    Except String (Store × Bool) :=
  if fail cmd then
    .error "store command failed"
  else
    match cmd with
    | .showTables n => .ok (s, (s n).isSome)
    | .createTable n ddl => .ok (updateTable s n ⟨ddl, []⟩, true)
    | .dropTable n => .ok (removeTable s n, true)
    | .insert n rows =>
        match s n with
        | some ts => .ok (updateTable s n ⟨ts.schema, ts.rows ++ rows⟩, true)
        | none => .error "table does not exist"

/-- The body of the loop in `ClickHouseImporter.main` (lines 181-189) for
one dataset, also collecting the list of store commands issued. In source
order: drop when `full_refresh` (182-183), existence check (184), create
when absent (184-187), insert when the table is not filtered (188-189).
There is no exception handling here: any store failure propagates. -/
def processDataset (fail : StoreCmd → Bool) (full_refresh : Bool)
    (ft : List String) (s : Store) (entry : String × DataFrame) :
    Except String (Store × List StoreCmd) :=
  let table_name := entry.1
  let df := entry.2
  let step1 : Except String (Store × List StoreCmd) :=
    if full_refresh then
      match runCmd fail s (.dropTable table_name) with
      | .error e => .error e
      | .ok (s', _) => .ok (s', [.dropTable table_name])
    else .ok (s, [])
  match step1 with
  | .error e => .error e
  | .ok (s1, tr1) =>
    match runCmd fail s1 (.showTables table_name) with
    | .error e => .error e
    | .ok (s2, tableFound) =>
      let tr2 := tr1 ++ [StoreCmd.showTables table_name]
      let step3 : Except String (Store × List StoreCmd) :=
        if tableFound then .ok (s2, tr2)
        else
          let ddl := generate_clickhouse_ddl df table_name
          match runCmd fail s2 (.createTable table_name ddl) with
          | .error e => .error e
          | .ok (s', _) => .ok (s', tr2 ++ [.createTable table_name ddl])
      match step3 with
      | .error e => .error e
      | .ok (s3, tr3) =>
        if table_name ∈ ft then .ok (s3, tr3)
        else
          match runCmd fail s3 (.insert table_name (toRows df)) with
          | .error e => .error e
          | .ok (s', _) => .ok (s', tr3 ++ [.insert table_name (toRows df)])

/-- `ClickHouseImporter.main` (lines 179-189): fold `processDataset` over
the datasets in discovery order. The loop body has no `try/except`, so the
first error ends the fold. -/
def mainRun (fail : StoreCmd → Bool) (full_refresh : Bool)
    (ft : List String) : List (String × DataFrame) → Store → Except String Store
  | [], s => .ok s
  | d :: ds, s =>
    match processDataset fail full_refresh ft s d with
    | .error e => .error e
    | .ok (s', _) => mainRun fail full_refresh ft ds s'

/-- One regular file met by `data_path.rglob("*")` (lines 162-165), in walk
order: its stem (`path.stem`, the table name), its extension with the dot
stripped (`get_file_type`), and the two read oracles for this file: the
outcome of `json.load` on it as a flat object, and the outcome of the
generic per-format reader on it. -/
structure DiscoveredFile where
  stem : String
  ext : String
  jsonObj : Except String (List (String × String))
  parsed : Except String DataFrame

/-- Reading one discovered file as `get_datasets` does (lines 168-169):
interpolation is on exactly when the stem is `mcc_codes`, then
`get_dataframe` runs with the file's extension as the format tag. -/
def readFile (f : DiscoveredFile) : Except ReaderError DataFrame :=
  get_dataframe (fun _ => f.jsonObj) (fun _ _ => f.parsed)
    f.stem f.ext (f.stem == "mcc_codes")

/-- Python dict assignment `d[k] = v` on an ordered dict with unique keys:
replaces the value in place when the key is present (keeping the key's
original position in insertion order), appends otherwise. -/
def dictInsert : List (String × DataFrame) → String → DataFrame →
    List (String × DataFrame)
  | [], k, v => [(k, v)]
  | p :: d, k, v => if p.1 = k then (k, v) :: d else p :: dictInsert d k v

/-- One iteration of the loop in `ClickHouseImporter.get_datasets`
(lines 162-175): a file whose read succeeds is assigned into the dict
under its stem (`df_datasets[table_name] = dataset`, line 170); a file
whose read raises is logged and skipped (`continue`, line 175). DDL
generation (line 171) is total in this model, so only the read can fail. -/
def datasetsStep (acc : List (String × DataFrame)) (f : DiscoveredFile) :
    List (String × DataFrame) :=
  match readFile f with
  | .ok df => dictInsert acc f.stem df
  | .error _ => acc

/-- `ClickHouseImporter.get_datasets` (lines 161-177): fold the per-file
step over the walked files, starting from the empty dict. -/
def get_datasets (files : List DiscoveredFile) : List (String × DataFrame) :=
  files.foldl datasetsStep []

/-- Lookup in the dict built by `get_datasets`. -/
def dictLookup (d : List (String × DataFrame)) (k : String) : Option DataFrame :=
  match d.find? (fun p => p.1 == k) with
  | some p => some p.2
  | none => none

/-- One step of the reference fold computing the last successful read for a
given stem. -/
def lastReadStep (stem : String) (acc : Option DataFrame) (f : DiscoveredFile) :
    Option DataFrame :=
  if f.stem == stem then
    match readFile f with
    | .ok df => some df
    | .error _ => acc
  else acc

/-- The dataframe of the last file in walk order with the given stem whose
read succeeded, if any. -/
def lastSuccessfulRead (files : List DiscoveredFile) (stem : String) :
    Option DataFrame :=
  files.foldl (lastReadStep stem) none

/-! ### Derived characterizations of the orchestrator loop body -/

/-- Store state after `processDataset` when no store command fails
(derived characterization, proved equal to `processDataset` below). -/
def afterStore (fr : Bool) (ft : List String) (s : Store) (name : String)
    (df : DataFrame) : Store :=
  let s1 := if fr then removeTable s name else s
  let s3 := match s1 name with
    | some _ => s1
    | none => updateTable s1 name ⟨generate_clickhouse_ddl df name, []⟩
  if name ∈ ft then s3
  else match s3 name with
    | some ts => updateTable s3 name ⟨ts.schema, ts.rows ++ toRows df⟩
    | none => s3

/-- Commands issued by `processDataset` when no store command fails
(derived characterization, proved equal to `processDataset` below). -/
def afterTrace (fr : Bool) (ft : List String) (s : Store) (name : String)
    (df : DataFrame) : List StoreCmd :=
  let s1 := if fr then removeTable s name else s
  (if fr then [StoreCmd.dropTable name] else []) ++ [StoreCmd.showTables name] ++
    (if (s1 name).isSome then []
     else [StoreCmd.createTable name (generate_clickhouse_ddl df name)]) ++
    (if name ∈ ft then [] else [StoreCmd.insert name (toRows df)])

/-- Store state after a full-refresh pass over one dataset: the table is
rebound to the synthesized schema with the dataset's rows (empty for an
excluded table). Derived characterization of `processDataset` with
`full_refresh = true`, proved below. -/
def refreshTable (ft : List String) (s : Store) (entry : String × DataFrame) :
    Store :=
  updateTable s entry.1
    ⟨generate_clickhouse_ddl entry.2 entry.1,
     if entry.1 ∈ ft then [] else toRows entry.2⟩

/-! ### Concrete example data used by witnesses -/

/-- A small example frame: `accounts.csv` with an Int32 and a Float32
column. -/
def exDf : DataFrame :=
  ⟨[⟨"id", .int32, ["1", "2"]⟩, ⟨"balance", .float32, ["3.5", "7.25"]⟩]⟩

/-- A second example frame, schema of the interpolated singleton. -/
def exDf2 : DataFrame :=
  ⟨[⟨"code", .utf8, ["5411"]⟩, ⟨"name", .utf8, ["Grocery"]⟩]⟩

/-- The store-failure oracle failing exactly the existence probe of the
given table. -/
def failShow (t : String) : StoreCmd → Bool := fun c =>
  match c with
  | .showTables n => n == t
  | _ => false

/-- The never-failing store oracle. -/
def noFail : StoreCmd → Bool := fun _ => false

/-! ### Claims about the Synthesizer (C3, C4) -/

/-- C3: the Synthesizer's column-type mapping is total and deterministic:
Int32/Float32/Utf8/Datetime map to "Int32"/"Float32"/"String"/"DateTime",
and every type outside the four-entry table maps to "String"; being a Lean
function, `mapColType` never fails and is deterministic by construction. -/
theorem mapColType_total_with_default :
    mapColType .int32 = "Int32" ∧ mapColType .float32 = "Float32" ∧
    mapColType .utf8 = "String" ∧ mapColType .datetime = "DateTime" ∧
    ∀ t : PolarsType,
      t ∉ [PolarsType.int32, PolarsType.float32, PolarsType.utf8, PolarsType.datetime] →
      mapColType t = "String" := by
  refine ⟨rfl, rfl, rfl, rfl, ?_⟩
  intro t ht
  cases t <;> first | rfl | simp at ht

/-- Witness for C3: an example type outside the table (Int64) maps to
"String", by the theorem applied at that concrete type. -/
theorem mapColType_total_with_default_witness :
    mapColType .int64 = "String" :=
  mapColType_total_with_default.2.2.2.2 .int64 (by decide)

/-- C4: the generated DDL has the fixed shape
`CREATE TABLE <name> (<cols>) ENGINE = Memory` where `<cols>` joins with
", " exactly one definition `<name> <mapped-type>` per source column, in
the Dataset's original column order, and the number of definitions equals
the column count. -/
theorem generate_ddl_shape (df : DataFrame) (table_name : String) :
    generate_clickhouse_ddl df table_name =
      "CREATE TABLE " ++ table_name ++ " (" ++
        String.intercalate ", " (df.cols.map colDef) ++ ") ENGINE = Memory" ∧
    (df.cols.map colDef).length = df.cols.length ∧
    ∀ i (h : i < df.cols.length),
      (df.cols.map colDef).get ⟨i, by simpa using h⟩ =
        (df.cols.get ⟨i, h⟩).name ++ " " ++ mapColType (df.cols.get ⟨i, h⟩).dtype := by
  refine ⟨rfl, by simp, ?_⟩
  intro i h
  simp [colDef]

/-- Witness for C4: on the concrete two-column example frame, the DDL text,
the definition count, and the first emitted definition, via the theorem. -/
theorem generate_ddl_shape_witness :
    generate_clickhouse_ddl exDf "accounts" =
      "CREATE TABLE " ++ "accounts" ++ " (" ++
        String.intercalate ", " (exDf.cols.map colDef) ++ ") ENGINE = Memory" ∧
    (exDf.cols.map colDef).length = 2 ∧
    (exDf.cols.map colDef).get ⟨0, by decide⟩ = "id" ++ " " ++ mapColType .int32 :=
  ⟨(generate_ddl_shape exDf "accounts").1,
   (generate_ddl_shape exDf "accounts").2.1,
   (generate_ddl_shape exDf "accounts").2.2 0 (by decide)⟩

/-! ### Claims about the Reader (C9, C2, C6) -/

/-- C9: the Reader fails with exactly one of two errors: an unsupported
format tag yields `unsupportedFormat` carrying the offending tag, a
failing read (in either mode) is wrapped into `readFailure` carrying the
original cause description, and every possible error is of one of these
two forms. -/
theorem get_dataframe_error_taxonomy
    (jsonLoad : String → Except String (List (String × String)))
    (formatRead : String → String → Except String DataFrame)
    (path tag : String) (interp : Bool) :
    (tag ∉ supported_formats →
      get_dataframe jsonLoad formatRead path tag interp =
        .error (.unsupportedFormat tag)) ∧
    (∀ cause, tag ∈ supported_formats → interp = true →
      jsonLoad path = .error cause →
      get_dataframe jsonLoad formatRead path tag interp =
        .error (.readFailure ("Failed to read dataset: " ++ cause))) ∧
    (∀ cause, tag ∈ supported_formats → interp = false →
      formatRead tag path = .error cause →
      get_dataframe jsonLoad formatRead path tag interp =
        .error (.readFailure ("Failed to read dataset: " ++ cause))) ∧
    (∀ err, get_dataframe jsonLoad formatRead path tag interp = .error err →
      err = .unsupportedFormat tag ∨
      ∃ cause, err = .readFailure ("Failed to read dataset: " ++ cause)) := by
  by_cases htag : tag ∈ supported_formats
  · refine ⟨fun h => absurd htag h, ?_, ?_, ?_⟩
    · intro cause _ hinterp hload
      simp [get_dataframe, htag, hinterp, hload]
    · intro cause _ hinterp hload
      simp [get_dataframe, htag, hinterp, hload]
    · intro err herr
      cases interp with
      | true =>
          cases hload : jsonLoad path with
          | ok data => simp [get_dataframe, htag, hload] at herr
          | error cause =>
              simp [get_dataframe, htag, hload] at herr
              exact Or.inr ⟨cause, herr.symm⟩
      | false =>
          cases hload : formatRead tag path with
          | ok df => simp [get_dataframe, htag, hload] at herr
          | error cause =>
              simp [get_dataframe, htag, hload] at herr
              exact Or.inr ⟨cause, herr.symm⟩
  · refine ⟨fun _ => by simp [get_dataframe, htag], ?_, ?_, ?_⟩
    · intro cause h; exact absurd h htag
    · intro cause h; exact absurd h htag
    · intro err herr
      simp [get_dataframe, htag] at herr
      exact Or.inl herr.symm

/-- Witness for C9: a concrete unsupported tag ("txt") yields the
unsupported-format error, and a concrete failing json read under a
supported tag yields the wrapped read failure, via the theorem. -/
theorem get_dataframe_error_taxonomy_witness :
    get_dataframe (fun _ => .error "boom") (fun _ _ => .error "boom")
      "f.txt" "txt" false = .error (.unsupportedFormat "txt") ∧
    get_dataframe (fun _ => .error "boom") (fun _ _ => .error "boom")
      "f.json" "json" true =
      .error (.readFailure ("Failed to read dataset: " ++ "boom")) :=
  ⟨(get_dataframe_error_taxonomy (fun _ => .error "boom")
      (fun _ _ => .error "boom") "f.txt" "txt" false).1 (by decide),
   (get_dataframe_error_taxonomy (fun _ => .error "boom")
      (fun _ _ => .error "boom") "f.json" "json" true).2.1 "boom"
      (by decide) rfl rfl⟩

/-- C2 counterexample: in interpolation mode (the `mcc_codes` singleton,
here with extension `txt`), the generic unsupported-format rejection IS
applied: `get_dataframe` raises `unsupportedFormat` before ever reaching
the interpolation branch, even though the flat-object parse would
succeed. This refutes the claim that the unsupported-format rejection is
not applied to the singleton dataset. -/
theorem interpolation_counterexample :
    get_dataframe (fun _ => .ok [("5411", "Grocery")]) (fun _ _ => .ok exDf2)
      "mcc_codes.txt" "txt" true = .error (.unsupportedFormat "txt") ∧
    readFile ⟨"mcc_codes", "txt", .ok [("5411", "Grocery")], .ok exDf2⟩ =
      .error (.unsupportedFormat "txt") := by
  constructor <;> rfl

/-- C2 amended: for a supported format tag, the interpolation path is
checked before generic per-format dispatch — the file is parsed as a flat
JSON object and the per-format reader is never consulted (the result is
independent of it) — but the unsupported-format check still runs first, so
an unsupported tag is rejected even in interpolation mode. -/
theorem interpolation_before_dispatch
    (jsonLoad : String → Except String (List (String × String)))
    (formatRead formatRead' : String → String → Except String DataFrame)
    (path tag : String) (hTag : tag ∈ supported_formats) :
    get_dataframe jsonLoad formatRead path tag true =
      (match jsonLoad path with
       | .ok data => .ok (interpolatedFrame data)
       | .error e => .error (.readFailure ("Failed to read dataset: " ++ e))) ∧
    get_dataframe jsonLoad formatRead path tag true =
      get_dataframe jsonLoad formatRead' path tag true := by
  constructor <;> simp [get_dataframe, hTag]

/-- Witness for the amended C2: with tag `json`, the interpolation result
is the flat-object frame, for two different per-format readers, via the
theorem. -/
theorem interpolation_before_dispatch_witness :
    get_dataframe (fun _ => .ok [("5411", "Grocery")]) (fun _ _ => .ok exDf)
      "mcc_codes.json" "json" true =
      .ok (interpolatedFrame [("5411", "Grocery")]) ∧
    get_dataframe (fun _ => .ok [("5411", "Grocery")]) (fun _ _ => .ok exDf)
      "mcc_codes.json" "json" true =
      get_dataframe (fun _ => .ok [("5411", "Grocery")])
        (fun _ _ => .error "reader not consulted") "mcc_codes.json" "json" true :=
  ⟨(interpolation_before_dispatch (fun _ => .ok [("5411", "Grocery")])
      (fun _ _ => .ok exDf) (fun _ _ => .error "reader not consulted")
      "mcc_codes.json" "json" (by decide)).1,
   (interpolation_before_dispatch (fun _ => .ok [("5411", "Grocery")])
      (fun _ _ => .ok exDf) (fun _ _ => .error "reader not consulted")
      "mcc_codes.json" "json" (by decide)).2⟩

/-- C6: in interpolation mode (for any supported tag), a flat JSON object
becomes exactly a two-column frame: column `code` holds the object's keys
and column `name` the corresponding values, both in the object's key
order. -/
theorem interpolation_code_name_columns
    (jsonLoad : String → Except String (List (String × String)))
    (formatRead : String → String → Except String DataFrame)
    (path tag : String) (obj : List (String × String))
    (hTag : tag ∈ supported_formats) (hLoad : jsonLoad path = .ok obj) :
    get_dataframe jsonLoad formatRead path tag true =
      .ok (interpolatedFrame obj) ∧
    (interpolatedFrame obj).cols.map Column.name = ["code", "name"] ∧
    (interpolatedFrame obj).cols.map Column.values =
      [obj.map Prod.fst, obj.map Prod.snd] := by
  refine ⟨?_, rfl, rfl⟩
  simp [get_dataframe, hTag, hLoad]

/-- Witness for C6: the spec's own example object yields
code = ["5411", "5812"] and name = ["Grocery", "Restaurant"], via the
theorem at that concrete input. -/
theorem interpolation_code_name_columns_witness :
    get_dataframe (fun _ => .ok [("5411", "Grocery"), ("5812", "Restaurant")])
      (fun _ _ => .ok exDf) "mcc_codes.json" "json" true =
      .ok (interpolatedFrame [("5411", "Grocery"), ("5812", "Restaurant")]) ∧
    (interpolatedFrame [("5411", "Grocery"), ("5812", "Restaurant")]).cols.map
      Column.values = [["5411", "5812"], ["Grocery", "Restaurant"]] :=
  ⟨(interpolation_code_name_columns
      (fun _ => .ok [("5411", "Grocery"), ("5812", "Restaurant")])
      (fun _ _ => .ok exDf) "mcc_codes.json" "json"
      [("5411", "Grocery"), ("5812", "Restaurant")] (by decide) rfl).1,
   by rfl⟩

/-! ### Characterization of the orchestrator loop body without store
failures -/

/-- Without store failures, `processDataset` succeeds and computes exactly
`afterStore` and `afterTrace`. -/
theorem processDataset_noFail (fr : Bool) (ft : List String) (s : Store)
    (name : String) (df : DataFrame) :
    processDataset noFail fr ft s (name, df) =
      .ok (afterStore fr ft s name df, afterTrace fr ft s name df) := by
  cases fr with
  | false =>
      cases h1 : s name with
      | none =>
          by_cases hft : name ∈ ft <;>
            simp [processDataset, afterStore, afterTrace, runCmd, noFail,
              h1, hft, updateTable]
      | some ts =>
          by_cases hft : name ∈ ft <;>
            simp [processDataset, afterStore, afterTrace, runCmd, noFail,
              h1, hft, updateTable]
  | true =>
      have h1 : removeTable s name name = none := by simp [removeTable]
      by_cases hft : name ∈ ft <;>
        simp [processDataset, afterStore, afterTrace, runCmd, noFail,
          h1, hft, updateTable]

/-- C5: for a dataset whose table name is in the Exclusion Set
(`filter_tables`), the orchestrator still provisions the table — drop under
full refresh, existence probe always, create when absent — but never issues
an insert command, so the table ends the run with zero rows inserted by
this system (under full refresh it ends exactly empty), whatever the
source frame contains. -/
theorem excluded_table_not_loaded (fr : Bool) (ft : List String) (s : Store)
    (name : String) (df : DataFrame) (h : name ∈ ft) :
    processDataset noFail fr ft s (name, df) =
      .ok (afterStore fr ft s name df, afterTrace fr ft s name df) ∧
    (∀ t rows, StoreCmd.insert t rows ∉ afterTrace fr ft s name df) ∧
    StoreCmd.showTables name ∈ afterTrace fr ft s name df ∧
    (fr = true → StoreCmd.dropTable name ∈ afterTrace fr ft s name df) ∧
    ((if fr then removeTable s name else s) name = none →
      StoreCmd.createTable name (generate_clickhouse_ddl df name) ∈
        afterTrace fr ft s name df) ∧
    (fr = true →
      afterStore fr ft s name df name =
        some ⟨generate_clickhouse_ddl df name, []⟩) := by
  refine ⟨processDataset_noFail fr ft s name df, ?_, ?_, ?_, ?_, ?_⟩
  · intro t rows
    cases fr <;> simp [afterTrace, h]
  · cases fr <;> simp [afterTrace, h]
  · intro hfr
    subst hfr
    simp [afterTrace, h]
  · intro h1
    cases fr <;> simp_all [afterTrace, h]
  · intro hfr
    subst hfr
    have h1 : removeTable s name name = none := by simp [removeTable]
    simp [afterStore, h, h1, updateTable]

/-- Witness for C5: the concrete excluded table `train_fraud_labels` under
full refresh from the empty store: the run issues no insert for it and
leaves it created empty, via the theorem. -/
theorem excluded_table_not_loaded_witness :
    processDataset noFail true filter_tables emptyStore
      ("train_fraud_labels", exDf2) =
      .ok (afterStore true filter_tables emptyStore "train_fraud_labels" exDf2,
           afterTrace true filter_tables emptyStore "train_fraud_labels" exDf2) ∧
    StoreCmd.insert "train_fraud_labels" (toRows exDf2) ∉
      afterTrace true filter_tables emptyStore "train_fraud_labels" exDf2 ∧
    afterStore true filter_tables emptyStore "train_fraud_labels" exDf2
      "train_fraud_labels" =
      some ⟨generate_clickhouse_ddl exDf2 "train_fraud_labels", []⟩ :=
  ⟨(excluded_table_not_loaded true filter_tables emptyStore
      "train_fraud_labels" exDf2 (by decide)).1,
   (excluded_table_not_loaded true filter_tables emptyStore
      "train_fraud_labels" exDf2 (by decide)).2.1 "train_fraud_labels"
      (toRows exDf2),
   (excluded_table_not_loaded true filter_tables emptyStore
      "train_fraud_labels" exDf2 (by decide)).2.2.2.2.2 rfl⟩

/-- C7: without full refresh, when the existence probe finds the table
present, the orchestrator issues no create (and no drop): the only commands
are the probe and — when not excluded — the insert, and the existing
table's schema is left unchanged (no comparison with the freshly inferred
schema is even possible from this trace). -/
theorem existing_table_schema_trusted (ft : List String) (s : Store)
    (name : String) (df : DataFrame) (ts : TableState)
    (hex : s name = some ts) :
    processDataset noFail false ft s (name, df) =
      .ok ((if name ∈ ft then s
            else updateTable s name ⟨ts.schema, ts.rows ++ toRows df⟩),
           StoreCmd.showTables name ::
             (if name ∈ ft then [] else [StoreCmd.insert name (toRows df)])) ∧
    ((if name ∈ ft then s
      else updateTable s name ⟨ts.schema, ts.rows ++ toRows df⟩) : Store) name =
      some ⟨ts.schema, if name ∈ ft then ts.rows else ts.rows ++ toRows df⟩ := by
  constructor
  · rw [processDataset_noFail]
    by_cases hft : name ∈ ft <;>
      simp [afterStore, afterTrace, hex, hft, updateTable]
  · by_cases hft : name ∈ ft <;> simp [hft, hex, updateTable]

/-- Witness for C7: a store already holding table `accounts` with some
schema text, processed without full refresh: only probe and insert are
issued and the schema string survives, via the theorem. -/
theorem existing_table_schema_trusted_witness :
    processDataset noFail false filter_tables
      (updateTable emptyStore "accounts" ⟨"old schema", [["0", "0"]]⟩)
      ("accounts", exDf) =
      .ok ((if "accounts" ∈ filter_tables then
              updateTable emptyStore "accounts" ⟨"old schema", [["0", "0"]]⟩
            else
              updateTable
                (updateTable emptyStore "accounts" ⟨"old schema", [["0", "0"]]⟩)
                "accounts" ⟨"old schema", [["0", "0"]] ++ toRows exDf⟩),
           StoreCmd.showTables "accounts" ::
             (if "accounts" ∈ filter_tables then []
              else [StoreCmd.insert "accounts" (toRows exDf)])) :=
  (existing_table_schema_trusted filter_tables
    (updateTable emptyStore "accounts" ⟨"old schema", [["0", "0"]]⟩)
    "accounts" exDf ⟨"old schema", [["0", "0"]]⟩ (by simp [updateTable])).1

/-- C1 counterexample: the orchestrator loop has no exception handling, so
a store failure on the very first command of the first dataset (here the
existence probe of `t1`) terminates the whole run as an error — the second
dataset `t2` is never provisioned or loaded, refuting the claim that
per-dataset store failures are caught and the batch proceeds. -/
theorem store_failure_kills_run_counterexample :
    mainRun (failShow "t1") false filter_tables
      [("t1", exDf), ("t2", exDf2)] emptyStore =
      .error "store command failed" := by
  rfl

/-- C1 amended: store-command failures are NOT caught at the orchestrator
boundary: any store failure while processing one dataset aborts not only
that dataset's remaining steps but the entire remaining run — no
subsequent dataset is processed. (Only read and DDL-generation failures
are caught per-dataset, inside `get_datasets`.) -/
theorem store_failure_aborts_run (fail : StoreCmd → Bool) (fr : Bool)
    (ft : List String) (d : String × DataFrame)
    (rest : List (String × DataFrame)) (s : Store) (e : String)
    (h : processDataset fail fr ft s d = .error e) :
    mainRun fail fr ft (d :: rest) s = .error e := by
  simp [mainRun, h]

/-- Witness for the amended C1: the concrete failing probe on `t1` aborts a
two-dataset run, via the theorem. -/
theorem store_failure_aborts_run_witness :
    mainRun (failShow "t1") false [] [("t1", exDf), ("t2", exDf2)] emptyStore =
      .error "store command failed" :=
  store_failure_aborts_run (failShow "t1") false [] ("t1", exDf)
    [("t2", exDf2)] emptyStore "store command failed" (by rfl)

/-! ### Full-refresh idempotence (C8) -/

theorem update_after_remove (s : Store) (n : String) (a b : TableState) :
    updateTable (updateTable (removeTable s n) n a) n b = updateTable s n b := by
  funext m
  by_cases h : m = n <;> simp [updateTable, removeTable, h]

theorem update_remove_eq (s : Store) (n : String) (a : TableState) :
    updateTable (removeTable s n) n a = updateTable s n a := by
  funext m
  by_cases h : m = n <;> simp [updateTable, removeTable, h]

theorem processDataset_fullRefresh (ft : List String) (s : Store)
    (entry : String × DataFrame) :
    processDataset noFail true ft s entry =
      .ok (refreshTable ft s entry, afterTrace true ft s entry.1 entry.2) := by
  obtain ⟨name, df⟩ := entry
  rw [processDataset_noFail]
  have h1 : removeTable s name name = none := by simp [removeTable]
  by_cases hft : name ∈ ft
  · simp [afterStore, h1, hft, refreshTable, update_remove_eq]
  · simp [afterStore, h1, hft, refreshTable, updateTable, update_after_remove]

theorem mainRun_fullRefresh (ft : List String)
    (ds : List (String × DataFrame)) (s : Store) :
    mainRun noFail true ft ds s = .ok (ds.foldl (refreshTable ft) s) := by
  induction ds generalizing s with
  | nil => rfl
  | cons d ds ih => simp [mainRun, processDataset_fullRefresh, ih]

theorem foldl_refresh_untouched (ft : List String)
    (ds : List (String × DataFrame)) (s : Store) (n : String)
    (h : n ∉ ds.map Prod.fst) :
    ds.foldl (refreshTable ft) s n = s n := by
  induction ds generalizing s with
  | nil => rfl
  | cons d ds ih =>
      simp only [List.map_cons, List.mem_cons, not_or] at h
      rw [List.foldl_cons, ih _ h.2]
      simp [refreshTable, updateTable, h.1]

theorem foldl_refresh_ext (ft : List String) (ds : List (String × DataFrame))
    (s s' : Store) (h : ∀ n, n ∉ ds.map Prod.fst → s n = s' n) :
    ds.foldl (refreshTable ft) s = ds.foldl (refreshTable ft) s' := by
  induction ds generalizing s s' with
  | nil => funext n; exact h n (by simp)
  | cons d ds ih =>
      rw [List.foldl_cons, List.foldl_cons]
      apply ih
      intro n hn
      by_cases hd : n = d.1
      · simp [refreshTable, updateTable, hd]
      · have hs := h n (by simp [hd, hn])
        simp [refreshTable, updateTable, hd, hs]

/-- C8: the full-refresh path is idempotent. Dropping a non-existent table
is not an error (`DROP TABLE IF EXISTS` succeeds on any store), and a
second full-refresh run over the same datasets reproduces exactly the
store that the first run left: identical schema and identical rows for
every table. -/
theorem full_refresh_idempotent :
    (∀ (s : Store) (n : String),
      runCmd noFail s (.dropTable n) = .ok (removeTable s n, true)) ∧
    ∀ (ft : List String) (ds : List (String × DataFrame)) (s s1 : Store),
      mainRun noFail true ft ds s = .ok s1 →
      mainRun noFail true ft ds s1 = .ok s1 := by
  constructor
  · intro s n
    rfl
  · intro ft ds s s1 h
    rw [mainRun_fullRefresh] at h
    injection h with h
    subst h
    rw [mainRun_fullRefresh]
    exact congrArg Except.ok
      (foldl_refresh_ext ft ds _ s fun n hn =>
        foldl_refresh_untouched ft ds s n hn)

/-- Witness for C8: a concrete one-dataset full refresh re-run from the
store its first run produced returns that same store, via the theorem. -/
theorem full_refresh_idempotent_witness :
    mainRun noFail true filter_tables [("t1", exDf)]
      ([(("t1" : String), exDf)].foldl (refreshTable filter_tables) emptyStore) =
      .ok ([(("t1" : String), exDf)].foldl (refreshTable filter_tables)
        emptyStore) :=
  full_refresh_idempotent.2 filter_tables [("t1", exDf)] emptyStore _
    (mainRun_fullRefresh filter_tables [("t1", exDf)] emptyStore)

/-! ### Dictionary lemmas and the discovery claim (C10) -/

theorem dictLookup_dictInsert (d : List (String × DataFrame)) (k : String)
    (v : DataFrame) (k' : String) :
    dictLookup (dictInsert d k v) k' =
      if k' = k then some v else dictLookup d k' := by
  induction d with
  | nil =>
      by_cases h : k' = k
      · simp [dictInsert, dictLookup, List.find?, h]
      · have hkk : (k == k') = false :=
          beq_eq_false_iff_ne.mpr fun hc => h hc.symm
        simp [dictInsert, dictLookup, List.find?, h, hkk]
  | cons p d ih =>
      by_cases hp : p.1 = k
      · by_cases h : k' = k
        · have hkk : (k == k') = true := beq_iff_eq.mpr h.symm
          simp [dictInsert, hp, dictLookup, List.find?, h, hkk]
        · have hkk : (k == k') = false :=
            beq_eq_false_iff_ne.mpr fun hc => h hc.symm
          have hpk : (p.1 == k') = false :=
            beq_eq_false_iff_ne.mpr fun hc => h (hp ▸ hc).symm
          simp [dictInsert, hp, dictLookup, List.find?, h, hkk, hpk]
      · by_cases h : p.1 = k'
        · have hk : ¬k' = k := fun hc => hp (by rw [h, hc])
          have hpk : (p.1 == k') = true := beq_iff_eq.mpr h
          simp [dictInsert, hp, dictLookup, List.find?, hpk, hk]
        · have hpk : (p.1 == k') = false := beq_eq_false_iff_ne.mpr h
          simp only [dictInsert, if_neg hp]
          simp only [dictLookup, List.find?, hpk] at ih ⊢
          exact ih

theorem mem_keys_dictInsert (d : List (String × DataFrame)) (k : String)
    (v : DataFrame) (m : String) :
    m ∈ (dictInsert d k v).map Prod.fst ↔ m ∈ d.map Prod.fst ∨ m = k := by
  induction d with
  | nil => simp [dictInsert]
  | cons p d ih =>
      by_cases hp : p.1 = k <;> simp [dictInsert, hp, ih] <;> tauto

theorem keys_nodup_dictInsert (d : List (String × DataFrame)) (k : String)
    (v : DataFrame) (h : (d.map Prod.fst).Nodup) :
    ((dictInsert d k v).map Prod.fst).Nodup := by
  induction d with
  | nil => simp [dictInsert]
  | cons p d ih =>
      simp only [List.map_cons, List.nodup_cons] at h
      by_cases hp : p.1 = k
      · simp only [dictInsert, if_pos hp, List.map_cons, List.nodup_cons]
        exact ⟨hp ▸ h.1, h.2⟩
      · simp only [dictInsert, if_neg hp, List.map_cons, List.nodup_cons]
        refine ⟨?_, ih h.2⟩
        rw [mem_keys_dictInsert]
        rintro (hc | hc)
        · exact h.1 hc
        · exact hp hc

theorem dictLookup_foldl (files : List DiscoveredFile)
    (acc : List (String × DataFrame)) (stem : String) :
    dictLookup (files.foldl datasetsStep acc) stem =
      files.foldl (lastReadStep stem) (dictLookup acc stem) := by
  induction files generalizing acc with
  | nil => rfl
  | cons f files ih =>
      rw [List.foldl_cons, List.foldl_cons, ih]
      congr 1
      unfold datasetsStep lastReadStep
      cases hr : readFile f with
      | ok df =>
          rw [dictLookup_dictInsert]
          by_cases h : stem = f.stem
          · have hb : (f.stem == stem) = true := beq_iff_eq.mpr h.symm
            simp [h, hb]
          · have hb : (f.stem == stem) = false :=
              beq_eq_false_iff_ne.mpr fun hc => h hc.symm
            simp [h, hb]
      | error e =>
          by_cases h : f.stem = stem <;> simp [h]

theorem keys_nodup_foldl (files : List DiscoveredFile)
    (acc : List (String × DataFrame)) (h : (acc.map Prod.fst).Nodup) :
    ((files.foldl datasetsStep acc).map Prod.fst).Nodup := by
  induction files generalizing acc with
  | nil => exact h
  | cons f files ih =>
      rw [List.foldl_cons]
      apply ih
      unfold datasetsStep
      cases readFile f with
      | ok df => exact keys_nodup_dictInsert _ _ _ h
      | error e => exact h

/-- C10: discovered datasets are keyed by file stem: the dict built by
`get_datasets` has pairwise-distinct table names (so at most one dataset
per table name ever reaches provisioning and loading), and the value bound
to each stem is exactly the frame of the last file in walk order with that
stem whose read succeeded — later successful reads replace earlier ones. -/
theorem get_datasets_last_read_wins (files : List DiscoveredFile) :
    ((get_datasets files).map Prod.fst).Nodup ∧
    ∀ stem, dictLookup (get_datasets files) stem =
      lastSuccessfulRead files stem := by
  constructor
  · exact keys_nodup_foldl files [] (by simp)
  · intro stem
    unfold get_datasets lastSuccessfulRead
    rw [dictLookup_foldl]
    rfl

/-- Witness for C10: two walked files sharing the stem `accounts`, both
reads succeeding — the dict binds the stem to the frame of the second
(later) file, via the theorem evaluated at that concrete input. -/
theorem get_datasets_last_read_wins_witness :
    dictLookup
      (get_datasets
        [⟨"accounts", "csv", .error "not a flat object", .ok exDf⟩,
         ⟨"accounts", "csv", .error "not a flat object", .ok exDf2⟩])
      "accounts" = some exDf2 :=
  ((get_datasets_last_read_wins
      [⟨"accounts", "csv", .error "not a flat object", .ok exDf⟩,
       ⟨"accounts", "csv", .error "not a flat object", .ok exDf2⟩]).2
    "accounts").trans (by rfl)

end DatasetImporter
